import Mathlib

/-!
Verification of the NBAStatPy standardization and validation utilities.

The Python source is shallowly embedded: pure helper functions of
`utils.py`, `config.py`, `player.py` and `team.py` become Lean functions;
Python exceptions become `Except.error` results carrying the exception
message; the external `nba_api` static data (team-abbreviation sets,
player lookup results) is passed in as explicit parameters.
-/

/-! ## Models of the Python string and integer primitives used by the source -/

/-- The single-quote character (code 39). -/
def squoteChar : Char := Char.ofNat 39

/-- The single-quote character as a string, used inside error messages. -/
def squote : String := String.mk [squoteChar]

/-- The hyphen character (code 45). -/
def hyphen : Char := Char.ofNat 45

/-- The zero character (code 48). -/
def zeroChar : Char := Char.ofNat 48

/-- The underscore character (code 95). -/
def underscore : Char := Char.ofNat 95

/-- Model of Python `str.lower` on one character (ASCII case rule). -/
def lowerChar (c : Char) : Char :=
  if 65 ≤ c.toNat ∧ c.toNat ≤ 90 then Char.ofNat (c.toNat + 32) else c

/-- Model of Python `str.upper` on one character (ASCII case rule). -/
def upperChar (c : Char) : Char :=
  if 97 ≤ c.toNat ∧ c.toNat ≤ 122 then Char.ofNat (c.toNat - 32) else c

/-- Model of Python `str.lower`. -/
def pyLower (s : String) : String := String.mk (s.data.map lowerChar)

/-- Model of Python `str.upper`. -/
def pyUpper (s : String) : String := String.mk (s.data.map upperChar)

/-- Whitespace characters stripped by Python `str.strip` (ASCII fragment). -/
def isSpaceChar (c : Char) : Bool :=
  c == Char.ofNat 32 || c == Char.ofNat 9 || c == Char.ofNat 10 ||
    c == Char.ofNat 13 || c == Char.ofNat 11 || c == Char.ofNat 12

/-- Drop whitespace from both ends of a character list. -/
def stripList (l : List Char) : List Char :=
  ((l.dropWhile isSpaceChar).reverse.dropWhile isSpaceChar).reverse

/-- Model of Python `str.strip`. -/
def pyStrip (s : String) : String := String.mk (stripList s.data)

/-- Model of the Python test `c in s` for a single character `c`. -/
def containsChar (s : String) (c : Char) : Bool := s.data.contains c

/-- Model of Python `str.split(sep)` for a one-character separator, on
big-endian character lists.  Always returns a non-empty list of parts. -/
def splitOnChar (sep : Char) : List Char → List (List Char)
  | [] => [[]]
  | c :: rest =>
    if c = sep then [] :: splitOnChar sep rest
    else
      match splitOnChar sep rest with
      | [] => [[c]]
      | h :: t => (c :: h) :: t

/-- A decimal digit value rendered as a character. -/
def digitToChar (d : Nat) : Char := Char.ofNat (48 + d)

/-- A character read back as a decimal digit value. -/
def charToDigit (c : Char) : Nat := c.toNat - 48

/-- Little-endian decimal digits of `n`, computed with explicit fuel so that
the definition reduces inside the kernel.  `natDigits` below instantiates the
fuel; it agrees with Mathlib's `Nat.digits 10` (lemma `natDigits_eq_digits`). -/
def toDigitsAux : Nat → Nat → List Nat
  | 0, _ => []
  | _ + 1, 0 => []
  | fuel + 1, n + 1 => (n + 1) % 10 :: toDigitsAux fuel ((n + 1) / 10)

/-- Little-endian decimal digits of `n` (empty for `0`). -/
def natDigits (n : Nat) : List Nat := toDigitsAux n n

/-- Model of Python `str` on a non-negative integer: big-endian decimal digits. -/
def natToString (n : Nat) : String :=
  if n = 0 then "0" else String.mk ((natDigits n).reverse.map digitToChar)

/-- Model of Python `str` on an integer. -/
def intToString (i : Int) : String :=
  if i < 0 then String.mk [hyphen] ++ natToString i.natAbs else natToString i.natAbs

/-- Numeric value of a big-endian list of decimal digit characters. -/
def listToNat (l : List Char) : Nat := Nat.ofDigits 10 ((l.map charToDigit).reverse)

/-- Numeric value of a string of decimal digit characters. -/
def strToNat (s : String) : Nat := listToNat s.data

/-- Model of Python `int(s)` on the characters of a stripped argument: an
optional minus sign followed by decimal digits; anything else raises
`ValueError`. -/
def pyIntList : List Char → Except String Int
  | [] => Except.error "invalid literal for int()"
  | c :: rest =>
    if c = hyphen then
      if rest ≠ [] ∧ rest.all Char.isDigit then Except.ok (-(listToNat rest : Int))
      else Except.error "invalid literal for int()"
    else
      if (c :: rest).all Char.isDigit then Except.ok ((listToNat (c :: rest) : Int))
      else Except.error "invalid literal for int()"

/-- Model of Python `int(s)` on a stripped string argument. -/
def pyInt (s : String) : Except String Int := pyIntList s.data

/-- Model of Python `str.zfill` on digit strings (no sign handling needed:
the source only zero-fills representations of non-negative ids). -/
def zfill (s : String) (width : Nat) : String :=
  if width ≤ s.length then s
  else String.mk (List.replicate (width - s.length) zeroChar) ++ s

/-- Model of Python `str.isdigit`: non-empty and all decimal digits. -/
def isDigitStr (s : String) : Bool := !s.data.isEmpty && s.data.all Char.isDigit

/-- `needle` occurs as a contiguous substring of `hay`. -/
def containsStr (needle hay : String) : Prop := needle.data <:+: hay.data

instance (n h : String) : Decidable (containsStr n h) :=
  inferInstanceAs (Decidable (n.data <:+: h.data))

deriving instance DecidableEq for Except

/-- Lexicographic comparison of character lists by code point, as Python
compares strings. -/
def listLe : List Char → List Char → Bool
  | [], _ => true
  | _ :: _, [] => false
  | a :: as, b :: bs => a.toNat < b.toNat || (a == b && listLe as bs)

/-- Model of Python `<=` on strings. -/
def pyStrLe (s t : String) : Bool := listLe s.data t.data

/-- Insert a string into a sorted list, keeping it sorted. -/
def insertStr (s : String) : List String → List String
  | [] => [s]
  | t :: rest => if pyStrLe s t then s :: t :: rest else t :: insertStr s rest

/-- Model of Python `sorted` on a list of strings (insertion sort;
Lean string order is the same code-point lexicographic order Python uses). -/
def pySorted (l : List String) : List String := l.foldr insertStr []

/-- Model of the Python `repr` of a list of strings, as an f-string renders it. -/
def pyListRepr (l : List String) : String :=
  "[" ++ String.intercalate ", " (l.map (fun s => squote ++ s ++ squote)) ++ "]"

/-! ## `utils.py`: `Validators` -/

namespace Validators

/-- `Validators.VALID_SEASON_TYPES` from utils.py (set written as a list). -/
def VALID_SEASON_TYPES : List String :=
  ["Regular Season", "Playoffs", "Pre Season", "All Star"]

/-- The error message raised by `Validators.validate_season_type`. -/
def seasonTypeErrorMsg (season_type : String) : String :=
  "Invalid season_type " ++ squote ++ season_type ++ squote ++ ". " ++
    "Valid options: " ++ pyListRepr (pySorted VALID_SEASON_TYPES)

/-- `Validators.validate_season_type` from utils.py. -/
def validate_season_type (season_type : String) : Except String String :=
  if season_type ∈ VALID_SEASON_TYPES then Except.ok season_type
  else Except.error (seasonTypeErrorMsg season_type)

/-- The error message raised by `Validators.validate_last_n_games`. -/
def lastNGamesErrorMsg (last_n_games : Int) : String :=
  "last_n_games must be between 1 and 82, got " ++ intToString last_n_games

/-- `Validators.validate_last_n_games` from utils.py. -/
def validate_last_n_games (last_n_games : Int) : Except String Int :=
  if last_n_games < 1 ∨ 82 < last_n_games then
    Except.error (lastNGamesErrorMsg last_n_games)
  else Except.ok last_n_games

/-- `Validators.detect_team_league` from utils.py, parameterized by the NBA and
WNBA abbreviation sets the source obtains from the external `nba_api` data. -/
def detect_team_league (nbaAbbrevs wnbaAbbrevs : List String)
    (abbreviation : String) : Option String :=
  if pyUpper abbreviation ∈ nbaAbbrevs then some "NBA"
  else if pyUpper abbreviation ∈ wnbaAbbrevs then some "WNBA"
  else none

end Validators

/-! ## `utils.py`: `PlayTypes` and `Formatter` -/

namespace PlayTypes

/-- `PlayTypes.PLAYTYPES` from utils.py, as an association list in source order. -/
def PLAYTYPES : List (String × String) :=
  [("TRANSITION", "Transition"), ("ISOLATION", "Isolation"), ("ISO", "Isolation"),
   ("PRBALLHANDLER", "PRBallHandler"), ("PRROLLMAN", "PRRollman"),
   ("POSTUP", "Postup"), ("SPOTUP", "Spotup"), ("HANDOFF", "Handoff"),
   ("CUT", "Cut"), ("OFFSCREEN", "OffScreen"), ("PUTBACKS", "OffRebound"),
   ("OFFREBOUND", "OffRebound"), ("MISC", "Misc")]

end PlayTypes

/-- A season argument as the Python source accepts it: an int or a string. -/
inductive SeasonInput where
  | int (i : Int)
  | str (s : String)
deriving DecidableEq

/-- Model of Python `str` applied to a season argument. -/
def SeasonInput.pyStr : SeasonInput → String
  | .int i => intToString i
  | .str s => s

namespace Formatter

/-- `Formatter.format_game_id` from utils.py, on non-negative integer ids. -/
def format_game_id (game_id : Nat) : String := zfill (natToString game_id) 10

/-- `Formatter.normalize_season_year` from utils.py. -/
def normalize_season_year (season_input : SeasonInput) : Except String Int :=
  let season_str := pyStrip season_input.pyStr
  if containsChar season_str hyphen then
    pyInt (String.mk ((splitOnChar hyphen season_str.data).headD []))
  else
    match pyInt season_str with
    | Except.error e => Except.error e
    | Except.ok year =>
      if year < 100 then
        if year < 50 then Except.ok (year + 2000) else Except.ok (year + 1900)
      else Except.ok year

/-- `Formatter.format_season_id` from utils.py. -/
def format_season_id (season_input : SeasonInput) : Except String String :=
  let season_str := pyStrip season_input.pyStr
  if season_str.length = 8 ∧ isDigitStr season_str then Except.ok season_str
  else if containsChar season_str hyphen then
    let parts := splitOnChar hyphen season_str.data
    match normalize_season_year (SeasonInput.str (String.mk (parts.headD []))) with
    | Except.error e => Except.error e
    | Except.ok first_year =>
      let p1 := parts.getD 1 []
      let second : Except String Int :=
        if p1.length = 2 then Except.ok (first_year + 1) else pyInt (String.mk p1)
      match second with
      | Except.error e => Except.error e
      | Except.ok second_year =>
        Except.ok (intToString first_year ++ intToString second_year)
  else
    match normalize_season_year season_input with
    | Except.error e => Except.error e
    | Except.ok year => Except.ok (intToString year ++ intToString (year + 1))

/-- The normalization at the head of `Formatter.check_playtype`:
remove underscores and hyphens, then uppercase. -/
def normalizePlay (play : String) : String :=
  pyUpper (String.mk ((play.data.filter (fun c => c ≠ underscore)).filter
    (fun c => c ≠ hyphen)))

/-- Result of `Formatter.check_playtype`: the ALL branch returns a list of
values, any other valid play returns the single mapped value. -/
inductive PlaytypeResult where
  | all (values : List String)
  | one (value : String)
deriving DecidableEq

/-- `Formatter.check_playtype` from utils.py.  The Python `list(set(...))` of
the ALL branch is modelled as order-preserving deduplication. -/
def check_playtype (play : String) (playtypes : List (String × String)) :
    Except String PlaytypeResult :=
  let p := normalizePlay play
  if p = "ALL" then Except.ok (PlaytypeResult.all ((playtypes.map Prod.snd).eraseDups))
  else
    match playtypes.lookup p with
    | none => Except.error ("Playtype: " ++ p ++ " not found")
    | some v => Except.ok (PlaytypeResult.one v)

end Formatter

/-! ## `config.py`: field classification registries -/

namespace ColumnTypes

/-- `ColumnTypes.INTEGER_COLUMNS` from config.py. -/
def INTEGER_COLUMNS : List String :=
  ["age", "games", "games_played", "gp", "w", "l", "wins", "losses",
   "season_year", "draft_year", "draft_round", "draft_number",
   "fgm", "fga", "fg3m", "fg3a", "ftm", "fta", "oreb", "dreb", "reb",
   "ast", "stl", "blk", "tov", "pf", "pts", "plus_minus"]

/-- `ColumnTypes.FLOAT_COLUMNS` from config.py. -/
def FLOAT_COLUMNS : List String :=
  ["fg_pct", "fg3_pct", "ft_pct", "min", "minutes", "height_inches",
   "weight", "ts_pct", "efg_pct", "ast_pct", "reb_pct", "usg_pct",
   "pace", "pie"]

/-- `ColumnTypes.STRING_COLUMNS` from config.py. -/
def STRING_COLUMNS : List String :=
  ["player_name", "team_name", "team_abbreviation", "matchup", "wl",
   "player_first_name", "player_last_name", "position", "college", "country"]

end ColumnTypes

namespace TimeFields

/-- `TimeFields.MINUTES_SECONDS_FIELDS` from config.py. -/
def MINUTES_SECONDS_FIELDS : List String := ["min", "minutes", "matchupminutes"]

/-- `TimeFields.SECONDS_FIELDS` from config.py. -/
def SECONDS_FIELDS : List String := ["seconds", "matchup_seconds", "clock_seconds"]

end TimeFields

namespace SpecialFields

/-- `SpecialFields.HEIGHT_FIELDS` from config.py. -/
def HEIGHT_FIELDS : List String := ["height", "player_height"]

/-- `SpecialFields.METADATA_FIELDS` from config.py. -/
def METADATA_FIELDS : List String := ["standardized_at", "source_endpoint"]

end SpecialFields

/-! ## `config.py`: `IDFields` -/

namespace IDFields

/-- `IDFields.ID_FIELD_MAPPING` from config.py. -/
def ID_FIELD_MAPPING : List (String × String) :=
  [("gameid", "game_id"), ("teamid", "team_id"), ("playerid", "player_id"),
   ("person_id", "player_id"), ("personid", "player_id")]

/-- `IDFields.ID_FIELDS` from config.py. -/
def ID_FIELDS : List String :=
  ["player_id", "team_id", "game_id", "person_id",
   "playerid", "teamid", "gameid", "personid"]

end IDFields

/-- Modelled from the spec: the Column Name Normalizer of the repository's
`standardize.py` module, which is not in the provided sources (spec section
4.3): lowercase the raw name; if the lowercased name is a key of the alias map
`IDFields.ID_FIELD_MAPPING`, substitute the canonical name; otherwise keep the
lowercased name unchanged. -/
def normalizeColumnName (raw : String) : String :=
  let lowered := pyLower raw
  match IDFields.ID_FIELD_MAPPING.lookup lowered with
  | some canonical => canonical
  | none => lowered

/-! ## `player.py` and `team.py`: the constructor lookup phases -/

/-- A static player record as returned by the external `nba_api` lookups. -/
structure PlayerMeta where
  id : Nat
  full_name : String
  first_name : String
  last_name : String
  is_active : Bool
deriving DecidableEq

/-- Outcome of the `Player.__init__` lookup: the record actually used and the
warning messages logged on the way. -/
structure PlayerInitResult where
  chosen : PlayerMeta
  logged : List String
deriving DecidableEq

/-- The lookup phase of `Player.__init__` from player.py, parameterized by the
results of the external `nba_api` lookups: `byId` stands for
`find_player_by_id(player)` and `byName` for
`find_players_by_full_name(player)`. -/
def playerInit (player : String) (byId : Option PlayerMeta)
    (byName : List PlayerMeta) : Except String PlayerInitResult :=
  let name_meta := match byId with
    | some m => [m]
    | none => byName
  match name_meta with
  | [] => Except.error (player ++ " not found")
  | m :: rest =>
    if rest = [] then Except.ok ⟨m, []⟩
    else Except.ok ⟨m, ["Multiple players returned. Using: " ++ m.full_name]⟩

/-- A static team record as returned by the external `nba_api` lookups. -/
structure TeamInfo where
  id : Nat
  abbreviation : String
deriving DecidableEq

/-- Outcome of the `Team.__init__` lookup: the detected league and the record. -/
structure TeamInitResult where
  league : String
  info : TeamInfo
deriving DecidableEq

/-- The league-detection and lookup phase of `Team.__init__` from team.py,
parameterized by the external abbreviation sets and per-league lookup results
(`findNBA` for `find_team_by_abbreviation`, `findWNBA` for
`find_wnba_team_by_abbreviation`). -/
def teamInit (nbaAbbrevs wnbaAbbrevs : List String)
    (findNBA findWNBA : Option TeamInfo) (team_abbreviation : String) :
    Except String TeamInitResult :=
  match Validators.detect_team_league nbaAbbrevs wnbaAbbrevs team_abbreviation with
  | none =>
    Except.error ("Team abbreviation " ++ squote ++ team_abbreviation ++ squote ++
      " not found in NBA or WNBA")
  | some league =>
    let info := if league = "WNBA" then findWNBA else findNBA
    match info with
    | none =>
      Except.error ("Team abbreviation " ++ squote ++ team_abbreviation ++ squote ++
        " not found in " ++ league)
    | some i => Except.ok ⟨league, i⟩

/-! ## The standardization engine and validator

The module `standardize.py` implementing `standardize_dataframe` and
`validate_dataframe` is not part of the provided sources (only `config.py`,
the example script and the wrapper call sites are).  The definitions below
are therefore modelled from the spec (sections 3, 4.2, 4.4 and 4.5), on top
of the `config.py` registries, which are in the sources. -/

/-- A table cell: a numeric value, a string, a boolean, or the null marker. -/
inductive Value where
  | num (x : Rat)
  | str (s : String)
  | bool (b : Bool)
  | null
deriving DecidableEq

/-- A tabular value: named columns over rows of cells. -/
structure DataFrame where
  header : List String
  rows : List (List Value)
deriving DecidableEq

/-- Modelled from the spec: the closed classification enumeration of
section 2 and the design notes, for the field registries of `config.py`. -/
inductive FieldCategory where
  | intField
  | floatField
  | strField
  | idField
  | dateField
  | timeField
  | heightField
  | unclassified
deriving DecidableEq

/-- Modelled from the spec: classify a canonical column name by membership
in the `config.py` registries; a name in no registry is `unclassified`. -/
def classifyField (name : String) : FieldCategory :=
  if name ∈ IDFields.ID_FIELDS then FieldCategory.idField
  else if name ∈ SpecialFields.HEIGHT_FIELDS then FieldCategory.heightField
  else if name ∈ TimeFields.MINUTES_SECONDS_FIELDS then FieldCategory.timeField
  else if name ∈ ColumnTypes.INTEGER_COLUMNS then FieldCategory.intField
  else if name ∈ ColumnTypes.FLOAT_COLUMNS then FieldCategory.floatField
  else if name ∈ ColumnTypes.STRING_COLUMNS then FieldCategory.strField
  else FieldCategory.unclassified

/-- Parse a big-endian digit-character list as a rational, if well formed. -/
def digitsToRat (l : List Char) : Option Rat :=
  if l ≠ [] ∧ l.all Char.isDigit then some ((listToNat l : Int) : Rat) else none

/-- Modelled from the spec: the `id` value transformer (section 4.2): render
as a string and left-pad with zeros to 10 characters; unconvertible input
becomes the null marker, never an error. -/
def idTransform (v : Value) : Value :=
  match v with
  | Value.num x => if x.den = 1 ∧ 0 ≤ x.num
      then Value.str (zfill (natToString x.num.toNat) 10) else Value.null
  | Value.str s => Value.str (zfill s 10)
  | _ => Value.null

/-- Modelled from the spec: the height transformer (section 4.2): split a
feet-inches string on a hyphen and compute `feet*12 + inches`; a numeric
value passes through; malformed input becomes null. -/
def heightTransform (v : Value) : Value :=
  match v with
  | Value.str s =>
    match splitOnChar hyphen s.data with
    | [f, i] =>
      match digitsToRat f, digitsToRat i with
      | some fv, some iv => Value.num (fv * 12 + iv)
      | _, _ => Value.null
    | _ => Value.null
  | Value.num x => Value.num x
  | _ => Value.null

/-- Modelled from the spec: the time transformer (section 4.2): split a
`MM:SS` string on the colon and compute `minutes*60 + seconds`; a bare
numeric value already in seconds passes through; malformed input becomes
null. -/
def timeTransform (v : Value) : Value :=
  match v with
  | Value.str s =>
    match splitOnChar (Char.ofNat 58) s.data with
    | [m, sec] =>
      match digitsToRat m, digitsToRat sec with
      | some mv, some sv => Value.num (mv * 60 + sv)
      | _, _ => Value.null
    | _ => Value.null
  | Value.num x => Value.num x
  | _ => Value.null

/-- Modelled from the spec: the numeric transformer (section 4.2): numbers
pass through, numeric strings are parsed, anything unparseable becomes
null, never an error. -/
def numTransform (v : Value) : Value :=
  match v with
  | Value.num x => Value.num x
  | Value.str s =>
    match digitsToRat s.data with
    | some x => Value.num x
    | none => Value.null
  | _ => Value.null

/-- Modelled from the spec: dispatch a cell through the transformer of its
column's category; unclassified and string/date columns pass values through
unchanged (section 4.2: no case-folding forced on string values). -/
def transformValue (cat : FieldCategory) (v : Value) : Value :=
  match cat with
  | FieldCategory.idField => idTransform v
  | FieldCategory.heightField => heightTransform v
  | FieldCategory.timeField => timeTransform v
  | FieldCategory.intField => numTransform v
  | FieldCategory.floatField => numTransform v
  | FieldCategory.strField => v
  | FieldCategory.dateField => v
  | FieldCategory.unclassified => v

/-- Modelled from the spec: per-row work of `standardize_dataframe`: apply
the classified transformer cell-wise under the renamed header, then append
the injected metadata cells. -/
def standardizeRow (header2 : List String) (extra : List Value)
    (row : List Value) : List Value :=
  (header2.zip row).map (fun nv => transformValue (classifyField nv.1) nv.2) ++ extra

/-- Modelled from the spec: `standardize_dataframe(table, data_type, season,
playoffs)` of the missing `standardize.py` (section 4.4): rename every column
via the Column Name Normalizer, transform each column's values by its
classification, and inject constant `season_id` / `is_playoffs` columns when
the corresponding argument is supplied.  `data_type` selects which metadata
is relevant but never changes the renaming or transform rules (section 4.4),
so it is carried but unused here. -/
def standardize_dataframe (df : DataFrame) (data_type : String)
    (season : Option SeasonInput) (playoffs : Option Bool) : DataFrame :=
  let header2 := df.header.map normalizeColumnName
  let seasonCols : List String := match season with
    | some _ => ["season_id"]
    | none => []
  let seasonVals : List Value := match season with
    | some s =>
      [match Formatter.format_season_id s with
       | Except.ok r => Value.str r
       | Except.error _ => Value.null]
    | none => []
  let playoffCols : List String := match playoffs with
    | some _ => ["is_playoffs"]
    | none => []
  let playoffVals : List Value := match playoffs with
    | some b => [Value.bool b]
    | none => []
  { header := header2 ++ seasonCols ++ playoffCols,
    rows := df.rows.map (standardizeRow header2 (seasonVals ++ playoffVals)) }

/-- Result of `validate_dataframe`: independent error and warning channels
plus the overall verdict. -/
structure ValidationResult where
  errors : List String
  warnings : List String
  passed : Bool
deriving DecidableEq

/-- The cell of `row` under column `c` of `header`, if the column exists
and the row is long enough. -/
def cellAt (header : List String) (row : List Value) (c : String) : Option Value :=
  match header.findIdx? (fun h => h == c) with
  | some i => row.get? i
  | none => none

/-- Whether a looked-up cell holds a number outside the inclusive range;
absent, null and non-numeric cells are silently skipped (spec section 4.5). -/
def outOfRangeCell (lo hi : Rat) (v : Option Value) : Bool :=
  match v with
  | some (Value.num x) => decide (x < lo) || decide (hi < x)
  | _ => false

/-- Modelled from the spec: `validate_dataframe(table, required_columns,
range_rules)` of the missing `standardize.py` (section 4.5): each absent
required column appends one entry to `errors`; each present, non-null,
numeric cell outside its declared inclusive range appends one entry to
`warnings`; `passed` is true iff `errors` is empty. -/
def validate_dataframe (df : DataFrame) (required_columns : List String)
    (range_rules : List (String × Rat × Rat)) : ValidationResult :=
  let errors := (required_columns.filter (fun c => !(df.header.contains c))).map
    (fun c => "missing column: " ++ c)
  let warnings := range_rules.flatMap (fun rule =>
    (df.rows.filter (fun row =>
      outOfRangeCell rule.2.1 rule.2.2 (cellAt df.header row rule.1))).map
      (fun _ => "value out of range in column: " ++ rule.1))
  { errors := errors, warnings := warnings, passed := errors.isEmpty }

/-! ## Helper lemmas about the primitive models -/

/-- `Char.ofNat` of a value below the surrogate range keeps its code. -/
theorem toNat_ofNat_valid (n : Nat) (h : n < 55296) : (Char.ofNat n).toNat = n := by
  unfold Char.ofNat
  rw [dif_pos (Or.inl h)]
  rfl

/-- Lowercasing one character twice is the same as lowercasing it once. -/
theorem lowerChar_idem (c : Char) : lowerChar (lowerChar c) = lowerChar c := by
  by_cases h : 65 ≤ c.toNat ∧ c.toNat ≤ 90
  · have hc : c.toNat < 55296 + 32 := by
      rcases h with ⟨_, h2⟩; omega
    have hv : (Char.ofNat (c.toNat + 32)).toNat = c.toNat + 32 :=
      toNat_ofNat_valid _ (by omega)
    simp only [lowerChar, if_pos h, hv]
    rw [if_neg (by omega)]
  · simp only [lowerChar, if_neg h]

/-- Lowercasing a string twice is the same as lowercasing it once. -/
theorem pyLower_idem (s : String) : pyLower (pyLower s) = pyLower s := by
  show String.mk ((s.data.map lowerChar).map lowerChar) = String.mk (s.data.map lowerChar)
  rw [List.map_map]
  congr 1
  apply List.map_congr_left
  intro a _
  exact lowerChar_idem a

/-- A successful association-list lookup returns one of the stored values. -/
theorem lookup_mem_snd {α β : Type} [BEq α] (l : List (α × β)) (a : α) (b : β)
    (h : l.lookup a = some b) : b ∈ l.map Prod.snd := by
  induction l with
  | nil => simp [List.lookup] at h
  | cons p rest ih =>
    cases p with
    | mk k v =>
      simp only [List.lookup] at h
      by_cases hk : (a == k) = true
      · rw [hk] at h
        simp only [Option.some.injEq] at h
        subst h
        exact List.mem_cons_self _ _
      · rw [Bool.not_eq_true] at hk
        rw [hk] at h
        exact List.mem_cons_of_mem _ (ih h)

/-- The fuelled digit computation agrees with Mathlib's `Nat.digits 10`. -/
theorem toDigitsAux_eq (fuel n : Nat) (h : n ≤ fuel) :
    toDigitsAux fuel n = Nat.digits 10 n := by
  induction fuel generalizing n with
  | zero =>
    have : n = 0 := Nat.le_zero.mp h
    subst this
    simp [toDigitsAux]
  | succ fuel ih =>
    cases n with
    | zero => simp [toDigitsAux]
    | succ m =>
      rw [toDigitsAux]
      rw [Nat.digits_def' (by norm_num : (1 : ℕ) < 10) (Nat.succ_pos m)]
      congr 1
      have hlt : (m + 1) / 10 < m + 1 := Nat.div_lt_self (Nat.succ_pos m) (by norm_num)
      exact ih _ (by omega)

/-- `natDigits` agrees with Mathlib's `Nat.digits 10`. -/
theorem natDigits_eq_digits (n : Nat) : natDigits n = Nat.digits 10 n :=
  toDigitsAux_eq n n le_rfl

/-- Reading a rendered digit back gives the digit. -/
theorem charToDigit_digitToChar : ∀ d < 10, charToDigit (digitToChar d) = d := by
  decide

/-- A rendered digit is a digit character. -/
theorem digitToChar_isDigit : ∀ d < 10, (digitToChar d).isDigit = true := by
  decide

/-- Every character of a rendered non-negative integer is a digit. -/
theorem natToString_all_digits (n : Nat) :
    ∀ c ∈ (natToString n).data, c.isDigit = true := by
  by_cases h : n = 0
  · subst h; decide
  · unfold natToString
    rw [if_neg h]
    intro c hc
    have hc2 : c ∈ (natDigits n).reverse.map digitToChar := hc
    simp only [List.mem_map, List.mem_reverse] at hc2
    obtain ⟨d, hd, rfl⟩ := hc2
    have hlt : d < 10 := by
      rw [natDigits_eq_digits] at hd
      exact Nat.digits_lt_base (by norm_num) hd
    exact digitToChar_isDigit d hlt

/-- A rendered non-negative integer is never the empty string. -/
theorem natToString_data_ne_nil (n : Nat) : (natToString n).data ≠ [] := by
  by_cases h : n = 0
  · subst h; decide
  · unfold natToString
    rw [if_neg h]
    show (natDigits n).reverse.map digitToChar ≠ []
    simp only [ne_eq, List.map_eq_nil_iff, List.reverse_eq_nil_iff]
    rw [natDigits_eq_digits]
    exact Nat.digits_ne_nil_iff_ne_zero.mpr h

/-- Rendering then reading back a non-negative integer is the identity. -/
theorem strToNat_natToString (n : Nat) : strToNat (natToString n) = n := by
  by_cases h : n = 0
  · subst h; decide
  · unfold natToString
    rw [if_neg h]
    show Nat.ofDigits 10 ((((natDigits n).reverse.map digitToChar).map charToDigit).reverse) = n
    rw [List.map_map]
    have hmap : (natDigits n).reverse.map (charToDigit ∘ digitToChar) = (natDigits n).reverse := by
      have := List.map_congr_left (l := (natDigits n).reverse)
        (f := charToDigit ∘ digitToChar) (g := id) ?_
      · rw [this, List.map_id]
      · intro a ha
        have hlt : a < 10 := by
          rw [List.mem_reverse, natDigits_eq_digits] at ha
          exact Nat.digits_lt_base (by norm_num) ha
        simp only [Function.comp_apply, id_eq]
        exact charToDigit_digitToChar a hlt
    rw [hmap, List.reverse_reverse, natDigits_eq_digits]
    exact Nat.ofDigits_digits 10 n

/-- `Nat.ofDigits` of a run of zeros is zero. -/
theorem ofDigits_replicate_zero (b k : Nat) :
    Nat.ofDigits b (List.replicate k 0) = 0 := by
  induction k with
  | zero => simp
  | succ k ih => simp [List.replicate_succ, Nat.ofDigits_cons, ih]

/-- Leading zero characters do not change the numeric value. -/
theorem listToNat_replicate_zero_append (k : Nat) (l : List Char) :
    listToNat (List.replicate k zeroChar ++ l) = listToNat l := by
  unfold listToNat
  rw [List.map_append, List.reverse_append]
  have h1 : (List.replicate k zeroChar).map charToDigit = List.replicate k 0 := by
    rw [List.map_replicate]
    congr 1
  rw [h1, List.reverse_replicate, Nat.ofDigits_append]
  simp [ofDigits_replicate_zero]

/-- `pyInt` succeeds on a non-empty all-digit character list. -/
theorem pyIntList_ok_of_digits (c : Char) (rest : List Char)
    (hdig : (c :: rest).all Char.isDigit = true) :
    pyIntList (c :: rest) = Except.ok ((listToNat (c :: rest) : Int)) := by
  have hc : c.isDigit = true := by
    have := List.all_eq_true.mp hdig c (List.mem_cons_self c rest)
    simpa using this
  have hch : ¬(c = hyphen) := by
    intro he
    subst he
    have : hyphen.isDigit = false := by decide
    rw [this] at hc
    exact Bool.noConfusion hc
  rw [pyIntList]
  rw [if_neg hch, if_pos hdig]

/-- A substring of `t` is a substring of `u ++ t`. -/
theorem containsStr_append_left (v t u : String) (h : containsStr v t) :
    containsStr v (u ++ t) := by
  obtain ⟨s1, s2, hs⟩ := h
  refine ⟨u.data ++ s1, s2, ?_⟩
  calc u.data ++ s1 ++ v.data ++ s2 = u.data ++ (s1 ++ v.data ++ s2) := by
        simp [List.append_assoc]
    _ = u.data ++ t.data := by rw [hs]
    _ = (u ++ t).data := by simp

/-- A substring of `u` is a substring of `u ++ t`. -/
theorem containsStr_append_right (v u t : String) (h : containsStr v u) :
    containsStr v (u ++ t) := by
  obtain ⟨s1, s2, hs⟩ := h
  refine ⟨s1, s2 ++ t.data, ?_⟩
  calc s1 ++ v.data ++ (s2 ++ t.data) = (s1 ++ v.data ++ s2) ++ t.data := by
        simp [List.append_assoc]
    _ = u.data ++ t.data := by rw [hs]
    _ = (u ++ t).data := by simp

/-- Every string is a substring of itself followed by anything. -/
theorem containsStr_self_append (v t : String) : containsStr v (v ++ t) :=
  ⟨[], t.data, by simp⟩

/-- `dropWhile` is the identity when no element satisfies the predicate. -/
theorem dropWhile_eq_self_of_all_false {p : Char → Bool} (l : List Char)
    (h : ∀ c ∈ l, p c = false) : l.dropWhile p = l := by
  cases l with
  | nil => rfl
  | cons c rest =>
    rw [List.dropWhile_cons, h c (List.mem_cons_self c rest)]
    simp

/-- A digit character is not whitespace. -/
theorem isSpaceChar_eq_false_of_isDigit (c : Char) (h : c.isDigit = true) :
    isSpaceChar c = false := by
  by_contra hs
  rw [Bool.not_eq_false] at hs
  unfold isSpaceChar at hs
  simp only [Bool.or_eq_true, beq_iff_eq] at hs
  rcases hs with ((((h1 | h1) | h1) | h1) | h1) | h1 <;>
    (subst h1; exact absurd h (by decide))

/-- Stripping whitespace from an all-digit character list is the identity. -/
theorem stripList_eq_self_of_all_digits (l : List Char)
    (h : l.all Char.isDigit = true) : stripList l = l := by
  have hns : ∀ c ∈ l, isSpaceChar c = false := by
    intro c hc
    have hd : c.isDigit = true := by
      have := List.all_eq_true.mp h c hc
      simpa using this
    exact isSpaceChar_eq_false_of_isDigit c hd
  unfold stripList
  rw [dropWhile_eq_self_of_all_false l hns]
  rw [dropWhile_eq_self_of_all_false l.reverse
    (fun c hc => hns c (List.mem_reverse.mp hc))]
  exact List.reverse_reverse l

/-- Stripping an all-digit string is the identity. -/
theorem pyStrip_eq_self_of_digits (s : String) (h : isDigitStr s = true) :
    pyStrip s = s := by
  unfold pyStrip
  have hall : s.data.all Char.isDigit = true := by
    unfold isDigitStr at h
    simp only [Bool.and_eq_true] at h
    exact h.2
  rw [stripList_eq_self_of_all_digits s.data hall]

/-- `splitOnChar` never returns the empty list of parts. -/
theorem splitOnChar_ne_nil (sep : Char) (l : List Char) :
    splitOnChar sep l ≠ [] := by
  cases l with
  | nil => simp [splitOnChar]
  | cons c rest =>
    rw [splitOnChar]
    by_cases h : c = sep
    · simp [h]
    · rw [if_neg h]
      cases hsp : splitOnChar sep rest <;> simp

/-- The first part of a split is the run of characters before the first
separator. -/
theorem splitOnChar_headD (sep : Char) (l : List Char) :
    (splitOnChar sep l).headD [] = l.takeWhile (fun c => !(c == sep)) := by
  induction l with
  | nil => rfl
  | cons c rest ih =>
    rw [splitOnChar]
    by_cases h : c = sep
    · subst h
      rw [if_pos rfl]
      simp [List.takeWhile_cons]
    · rw [if_neg h]
      cases hsp : splitOnChar sep rest with
      | nil => exact absurd hsp (splitOnChar_ne_nil sep rest)
      | cons hd tl =>
        have hhd : hd = rest.takeWhile (fun c => !(c == sep)) := by
          have h2 := ih
          rw [hsp] at h2
          simpa using h2
        simp [List.takeWhile_cons, h, hhd]

/-- `pyIntList` succeeds on any non-empty all-digit character list. -/
theorem pyIntList_ok_of_digits_ne_nil (l : List Char) (hne : l ≠ [])
    (hdig : l.all Char.isDigit = true) :
    pyIntList l = Except.ok ((listToNat l : Int)) := by
  cases l with
  | nil => exact absurd rfl hne
  | cons c rest => exact pyIntList_ok_of_digits c rest hdig

/-- The characters of a zero-filled string, when padding applies. -/
theorem format_game_id_data (id : Nat) (h : (natToString id).length ≤ 10) :
    (Formatter.format_game_id id).data =
      List.replicate (10 - (natToString id).length) zeroChar ++
        (natToString id).data := by
  unfold Formatter.format_game_id zfill
  by_cases h10 : 10 ≤ (natToString id).length
  · rw [if_pos h10]
    have he : 10 - (natToString id).length = 0 := by omega
    rw [he]
    rfl
  · rw [if_neg h10]
    rfl

/-- C2: for every non-negative integer id whose decimal representation has at
most 10 digits, parsing the zero-padded string produced by
`Formatter.format_game_id` back as an integer returns the original value. -/
theorem format_game_id_roundtrip (id : Nat) (h : (natToString id).length ≤ 10) :
    pyInt (Formatter.format_game_id id) = Except.ok ((id : Int)) := by
  have hdata := format_game_id_data id h
  have hne : List.replicate (10 - (natToString id).length) zeroChar ++
      (natToString id).data ≠ [] := by
    intro heq
    exact natToString_data_ne_nil id (List.append_eq_nil.mp heq).2
  have hdig : (List.replicate (10 - (natToString id).length) zeroChar ++
      (natToString id).data).all Char.isDigit = true := by
    rw [List.all_eq_true]
    intro c hc
    rw [List.mem_append] at hc
    rcases hc with hc | hc
    · have hz : c = zeroChar := List.eq_of_mem_replicate hc
      subst hz
      decide
    · have := natToString_all_digits id c hc
      simpa using this
  show pyIntList (Formatter.format_game_id id).data = Except.ok ((id : Int))
  rw [hdata, pyIntList_ok_of_digits_ne_nil _ hne hdig,
    listToNat_replicate_zero_append]
  have : listToNat (natToString id).data = id := strToNat_natToString id
  rw [this]

/-- C2 witness: the round trip at the concrete id 203507. -/
theorem format_game_id_roundtrip_witness :
    (natToString 203507).length ≤ 10 ∧
      pyInt (Formatter.format_game_id 203507) = Except.ok ((203507 : Int)) :=
  ⟨by decide, format_game_id_roundtrip 203507 (by decide)⟩

/-- C3: an id of at most 10 digits is left-padded with zeros to exactly 10
characters; an id of more than 10 digits is passed through unchanged. -/
theorem format_game_id_width (id : Nat) :
    ((natToString id).length ≤ 10 →
      Formatter.format_game_id id =
        String.mk (List.replicate (10 - (natToString id).length) zeroChar) ++
          natToString id ∧
      (Formatter.format_game_id id).length = 10) ∧
    (10 < (natToString id).length →
      Formatter.format_game_id id = natToString id) := by
  constructor
  · intro h
    constructor
    · unfold Formatter.format_game_id zfill
      by_cases h10 : 10 ≤ (natToString id).length
      · rw [if_pos h10]
        have he : 10 - (natToString id).length = 0 := by omega
        rw [he]
        rfl
      · rw [if_neg h10]
    · have hdata := format_game_id_data id h
      show (Formatter.format_game_id id).data.length = 10
      rw [hdata, List.length_append, List.length_replicate]
      have : (natToString id).length = (natToString id).data.length := rfl
      omega
  · intro h
    unfold Formatter.format_game_id zfill
    rw [if_pos (by omega)]

/-- C3 witness: padding at a 6-digit id and passthrough at an 11-digit id. -/
theorem format_game_id_width_witness :
    ((natToString 203507).length ≤ 10 ∧
      Formatter.format_game_id 203507 =
        String.mk (List.replicate (10 - (natToString 203507).length) zeroChar) ++
          natToString 203507 ∧
      (Formatter.format_game_id 203507).length = 10) ∧
    (10 < (natToString 12345678901).length ∧
      Formatter.format_game_id 12345678901 = natToString 12345678901) :=
  ⟨⟨by decide, ((format_game_id_width 203507).1 (by decide)).1,
    ((format_game_id_width 203507).1 (by decide)).2⟩,
   ⟨by decide, (format_game_id_width 12345678901).2 (by decide)⟩⟩

/-- One application of the column normalizer is already a fixed point. -/
theorem normalizeColumnName_idem_single (raw : String) :
    normalizeColumnName (normalizeColumnName raw) = normalizeColumnName raw := by
  have hcanon : ∀ v ∈ IDFields.ID_FIELD_MAPPING.map Prod.snd,
      normalizeColumnName v = v := by decide
  cases hl : IDFields.ID_FIELD_MAPPING.lookup (pyLower raw) with
  | some v =>
    have h1 : normalizeColumnName raw = v := by
      show (match IDFields.ID_FIELD_MAPPING.lookup (pyLower raw) with
        | some canonical => canonical
        | none => pyLower raw) = v
      rw [hl]
    rw [h1]
    exact hcanon v (lookup_mem_snd _ _ _ hl)
  | none =>
    have h1 : normalizeColumnName raw = pyLower raw := by
      show (match IDFields.ID_FIELD_MAPPING.lookup (pyLower raw) with
        | some canonical => canonical
        | none => pyLower raw) = pyLower raw
      rw [hl]
    rw [h1]
    show (match IDFields.ID_FIELD_MAPPING.lookup (pyLower (pyLower raw)) with
      | some canonical => canonical
      | none => pyLower (pyLower raw)) = pyLower raw
    rw [pyLower_idem, hl]

/-- C4: column-name normalization is idempotent, and every canonical name
(a value of the alias map) resolves to itself. -/
theorem normalizeColumnName_idempotent :
    (∀ raw : String,
      normalizeColumnName (normalizeColumnName raw) = normalizeColumnName raw) ∧
    (∀ v ∈ IDFields.ID_FIELD_MAPPING.map Prod.snd, normalizeColumnName v = v) :=
  ⟨normalizeColumnName_idem_single, by decide⟩

/-- C4 witness: idempotence at a concrete aliased name and fixed-point
behavior at a concrete canonical name. -/
theorem normalizeColumnName_idempotent_witness :
    normalizeColumnName (normalizeColumnName "PERSON_ID") =
      normalizeColumnName "PERSON_ID" ∧
    ("player_id" ∈ IDFields.ID_FIELD_MAPPING.map Prod.snd ∧
      normalizeColumnName "player_id" = "player_id") :=
  ⟨normalizeColumnName_idempotent.1 "PERSON_ID",
   by decide, normalizeColumnName_idempotent.2 "player_id" (by decide)⟩

/-- Every string occurs in itself. -/
theorem containsStr_refl (v : String) : containsStr v v :=
  ⟨[], [], by simp⟩

/-- C1 counterexample: `check_playtype` rejects the unknown play type FOO
immediately, but its error message names none of the valid play types
(neither a key nor a value of the table), so the message does not name the
set of valid alternatives. -/
theorem check_playtype_error_lacks_valid_set :
    Formatter.check_playtype "FOO" PlayTypes.PLAYTYPES =
      Except.error "Playtype: FOO not found" ∧
    (∀ k ∈ PlayTypes.PLAYTYPES.map Prod.fst,
      ¬ containsStr k "Playtype: FOO not found") ∧
    (∀ v ∈ PlayTypes.PLAYTYPES.map Prod.snd,
      ¬ containsStr v "Playtype: FOO not found") := by
  decide

/-- C1 (amended): an unknown season type and an out-of-bounds `last_n_games`
raise immediately with a message naming the valid set or range; an unknown
play type raises immediately with a message naming the offending play type,
though not the set of valid alternatives. -/
theorem invalid_enum_params_fail_fast :
    (∀ season_type : String, season_type ∉ Validators.VALID_SEASON_TYPES →
      Validators.validate_season_type season_type =
        Except.error (Validators.seasonTypeErrorMsg season_type) ∧
      ∀ v ∈ Validators.VALID_SEASON_TYPES,
        containsStr v (Validators.seasonTypeErrorMsg season_type)) ∧
    (∀ n : Int, n < 1 ∨ 82 < n →
      Validators.validate_last_n_games n =
        Except.error (Validators.lastNGamesErrorMsg n) ∧
      containsStr "between 1 and 82" (Validators.lastNGamesErrorMsg n)) ∧
    (∀ (play : String) (playtypes : List (String × String)),
      Formatter.normalizePlay play ≠ "ALL" →
      playtypes.lookup (Formatter.normalizePlay play) = none →
      Formatter.check_playtype play playtypes =
        Except.error ("Playtype: " ++ Formatter.normalizePlay play ++ " not found") ∧
      containsStr (Formatter.normalizePlay play)
        ("Playtype: " ++ Formatter.normalizePlay play ++ " not found")) := by
  refine ⟨?_, ?_, ?_⟩
  · intro s hs
    constructor
    · unfold Validators.validate_season_type
      rw [if_neg hs]
    · intro v hv
      show containsStr v ("Invalid season_type " ++ squote ++ s ++ squote ++ ". " ++
        "Valid options: " ++ pyListRepr (pySorted Validators.VALID_SEASON_TYPES))
      apply containsStr_append_left
      fin_cases hv <;> decide
  · intro n hn
    constructor
    · unfold Validators.validate_last_n_games
      rw [if_pos hn]
    · show containsStr "between 1 and 82"
        ("last_n_games must be between 1 and 82, got " ++ intToString n)
      apply containsStr_append_right
      decide
  · intro play playtypes hall hlk
    constructor
    · show (if Formatter.normalizePlay play = "ALL" then
          Except.ok (Formatter.PlaytypeResult.all
            ((playtypes.map Prod.snd).eraseDups))
        else
          match playtypes.lookup (Formatter.normalizePlay play) with
          | none => Except.error ("Playtype: " ++ Formatter.normalizePlay play ++
              " not found")
          | some v => Except.ok (Formatter.PlaytypeResult.one v)) =
        Except.error ("Playtype: " ++ Formatter.normalizePlay play ++ " not found")
      rw [if_neg hall, hlk]
    · apply containsStr_append_right
      apply containsStr_append_left
      exact containsStr_refl _

/-- C1 witness: the amended behavior at the concrete inputs Postseason,
83 and FOO. -/
theorem invalid_enum_params_fail_fast_witness :
    (Validators.validate_season_type "Postseason" =
        Except.error (Validators.seasonTypeErrorMsg "Postseason") ∧
      containsStr "Playoffs" (Validators.seasonTypeErrorMsg "Postseason")) ∧
    (Validators.validate_last_n_games 83 =
        Except.error (Validators.lastNGamesErrorMsg 83) ∧
      containsStr "between 1 and 82" (Validators.lastNGamesErrorMsg 83)) ∧
    Formatter.check_playtype "FOO" PlayTypes.PLAYTYPES =
      Except.error ("Playtype: " ++ Formatter.normalizePlay "FOO" ++ " not found") :=
  ⟨⟨(invalid_enum_params_fail_fast.1 "Postseason" (by decide)).1,
    (invalid_enum_params_fail_fast.1 "Postseason" (by decide)).2 "Playoffs" (by decide)⟩,
   invalid_enum_params_fail_fast.2.1 83 (by decide),
   (invalid_enum_params_fail_fast.2.2 "FOO" PlayTypes.PLAYTYPES (by decide)
     (by decide)).1⟩

/-- C10 counterexample: on the succeeding input "2-3", `format_season_id`
returns "20023", which is not an 8-digit string, and re-applying
`format_season_id` to that result changes it. -/
theorem format_season_id_not_idempotent :
    Formatter.format_season_id (SeasonInput.str "2-3") = Except.ok "20023" ∧
    "20023".length ≠ 8 ∧
    Formatter.format_season_id (SeasonInput.str "20023") =
      Except.ok "2002320024" ∧
    "2002320024" ≠ "20023" := by
  decide

/-- C10 (amended): whenever `format_season_id` succeeds and its result is an
8-digit digit string, re-applying `format_season_id` to the result returns it
unchanged; results of other shapes are possible and are not fixed points. -/
theorem format_season_id_idem_on_8_digits (x : SeasonInput) (r : String)
    (hok : Formatter.format_season_id x = Except.ok r)
    (hlen : r.length = 8) (hdig : isDigitStr r = true) :
    Formatter.format_season_id (SeasonInput.str r) = Except.ok r := by
  have hstrip : pyStrip r = r := pyStrip_eq_self_of_digits r hdig
  simp only [Formatter.format_season_id, SeasonInput.pyStr]
  rw [hstrip, if_pos ⟨hlen, hdig⟩]

/-- C10 witness: the amended idempotence at the concrete input "2022-23",
whose result "20222023" is an 8-digit digit string. -/
theorem format_season_id_idem_witness :
    Formatter.format_season_id (SeasonInput.str "2022-23") =
      Except.ok "20222023" ∧
    "20222023".length = 8 ∧ isDigitStr "20222023" = true ∧
    Formatter.format_season_id (SeasonInput.str "20222023") =
      Except.ok "20222023" :=
  ⟨by decide, by decide, by decide,
   format_season_id_idem_on_8_digits (SeasonInput.str "2022-23") "20222023"
     (by decide) (by decide) (by decide)⟩

/-- C5: a player lookup matching nothing raises with the lookup key in the
message; a player lookup matching several records logs a warning and
deterministically uses the first; a team abbreviation found in neither
league raises with the lookup key in the message. -/
theorem entity_lookup_errors :
    (∀ player : String,
      playerInit player none [] = Except.error (player ++ " not found") ∧
      containsStr player (player ++ " not found")) ∧
    (∀ (player : String) (m : PlayerMeta) (rest : List PlayerMeta), rest ≠ [] →
      playerInit player none (m :: rest) =
        Except.ok ⟨m, ["Multiple players returned. Using: " ++ m.full_name]⟩) ∧
    (∀ (nba wnba : List String) (findNBA findWNBA : Option TeamInfo) (a : String),
      pyUpper a ∉ nba → pyUpper a ∉ wnba →
      teamInit nba wnba findNBA findWNBA a =
        Except.error ("Team abbreviation " ++ squote ++ a ++ squote ++
          " not found in NBA or WNBA") ∧
      containsStr a ("Team abbreviation " ++ squote ++ a ++ squote ++
        " not found in NBA or WNBA")) := by
  refine ⟨?_, ?_, ?_⟩
  · intro player
    exact ⟨rfl, containsStr_self_append player " not found"⟩
  · intro player m rest hne
    show (if rest = [] then Except.ok (⟨m, []⟩ : PlayerInitResult)
      else Except.ok ⟨m, ["Multiple players returned. Using: " ++ m.full_name]⟩) = _
    rw [if_neg hne]
  · intro nba wnba findNBA findWNBA a h1 h2
    have hdet : Validators.detect_team_league nba wnba a = none := by
      unfold Validators.detect_team_league
      rw [if_neg h1, if_neg h2]
    constructor
    · show (match Validators.detect_team_league nba wnba a with
        | none =>
          Except.error ("Team abbreviation " ++ squote ++ a ++ squote ++
            " not found in NBA or WNBA")
        | some league =>
          match (if league = "WNBA" then findWNBA else findNBA) with
          | none =>
            Except.error ("Team abbreviation " ++ squote ++ a ++ squote ++
              " not found in " ++ league)
          | some i => Except.ok (⟨league, i⟩ : TeamInitResult)) = _
      rw [hdet]
    · apply containsStr_append_right
      apply containsStr_append_right
      apply containsStr_append_left
      exact containsStr_refl a

/-- C5 witness: the three behaviors at concrete lookups. -/
theorem entity_lookup_errors_witness :
    playerInit "Nobody" none [] = Except.error "Nobody not found" ∧
    playerInit "Smith" none
        [⟨1, "A Smith", "A", "Smith", true⟩, ⟨2, "B Smith", "B", "Smith", false⟩] =
      Except.ok ⟨⟨1, "A Smith", "A", "Smith", true⟩,
        ["Multiple players returned. Using: A Smith"]⟩ ∧
    teamInit ["MIL"] ["LVA"] none none "XXX" =
      Except.error ("Team abbreviation " ++ squote ++ "XXX" ++ squote ++
        " not found in NBA or WNBA") :=
  ⟨(entity_lookup_errors.1 "Nobody").1,
   entity_lookup_errors.2.1 "Smith" ⟨1, "A Smith", "A", "Smith", true⟩
     [⟨2, "B Smith", "B", "Smith", false⟩] (by decide),
   (entity_lookup_errors.2.2 ["MIL"] ["LVA"] none none "XXX" (by decide)
     (by decide)).1⟩

/-- C8: a two-digit non-negative numeric season input is expanded to 2000+y
below 50 and to 1900+y from 50 on; a string input containing a hyphen is
parsed as the integer value of the part before the first hyphen of the
stripped string. -/
theorem normalize_season_year_rules :
    (∀ y : Nat, y < 100 →
      Formatter.normalize_season_year (SeasonInput.int (y : Int)) =
        Except.ok (if y < 50 then (y : Int) + 2000 else (y : Int) + 1900)) ∧
    (∀ s : String, containsChar (pyStrip s) hyphen = true →
      Formatter.normalize_season_year (SeasonInput.str s) =
        pyInt (String.mk ((pyStrip s).data.takeWhile (fun c => !(c == hyphen))))) := by
  constructor
  · decide
  · intro s hcontains
    simp only [Formatter.normalize_season_year, SeasonInput.pyStr]
    rw [if_pos hcontains, splitOnChar_headD]

/-- C8 witness: the expansion at 22 and 75 and the hyphen rule at
"2022-23". -/
theorem normalize_season_year_rules_witness :
    Formatter.normalize_season_year (SeasonInput.int 22) = Except.ok 2022 ∧
    Formatter.normalize_season_year (SeasonInput.int 75) = Except.ok 1975 ∧
    Formatter.normalize_season_year (SeasonInput.str "2022-23") =
      pyInt (String.mk ((pyStrip "2022-23").data.takeWhile
        (fun c => !(c == hyphen)))) := by
  refine ⟨?_, ?_, ?_⟩
  · have h := normalize_season_year_rules.1 22 (by decide)
    norm_num at h
    exact h
  · have h := normalize_season_year_rules.1 75 (by decide)
    norm_num at h
    exact h
  · exact normalize_season_year_rules.2 "2022-23" (by decide)

/-- C9: league auto-detection checks NBA before WNBA: an abbreviation in
both sets detects as NBA and the Team constructor uses the NBA record; an
abbreviation in neither set detects as none and the Team constructor
raises. -/
theorem detect_team_league_nba_first :
    (∀ (nba wnba : List String) (i : TeamInfo) (findWNBA : Option TeamInfo)
        (a : String),
      pyUpper a ∈ nba → pyUpper a ∈ wnba →
      Validators.detect_team_league nba wnba a = some "NBA" ∧
      teamInit nba wnba (some i) findWNBA a = Except.ok ⟨"NBA", i⟩) ∧
    (∀ (nba wnba : List String) (findNBA findWNBA : Option TeamInfo)
        (a : String),
      pyUpper a ∉ nba → pyUpper a ∉ wnba →
      Validators.detect_team_league nba wnba a = none ∧
      teamInit nba wnba findNBA findWNBA a =
        Except.error ("Team abbreviation " ++ squote ++ a ++ squote ++
          " not found in NBA or WNBA")) := by
  constructor
  · intro nba wnba i findWNBA a h1 _h2
    have hdet : Validators.detect_team_league nba wnba a = some "NBA" := by
      unfold Validators.detect_team_league
      rw [if_pos h1]
    refine ⟨hdet, ?_⟩
    show (match Validators.detect_team_league nba wnba a with
      | none =>
        Except.error ("Team abbreviation " ++ squote ++ a ++ squote ++
          " not found in NBA or WNBA")
      | some league =>
        match (if league = "WNBA" then findWNBA else some i) with
        | none =>
          Except.error ("Team abbreviation " ++ squote ++ a ++ squote ++
            " not found in " ++ league)
        | some j => Except.ok (⟨league, j⟩ : TeamInitResult)) = _
    rw [hdet]
    rfl
  · intro nba wnba findNBA findWNBA a h1 h2
    have hdet : Validators.detect_team_league nba wnba a = none := by
      unfold Validators.detect_team_league
      rw [if_neg h1, if_neg h2]
    refine ⟨hdet, ?_⟩
    show (match Validators.detect_team_league nba wnba a with
      | none =>
        Except.error ("Team abbreviation " ++ squote ++ a ++ squote ++
          " not found in NBA or WNBA")
      | some league =>
        match (if league = "WNBA" then findWNBA else findNBA) with
        | none =>
          Except.error ("Team abbreviation " ++ squote ++ a ++ squote ++
            " not found in " ++ league)
        | some i => Except.ok (⟨league, i⟩ : TeamInitResult)) = _
    rw [hdet]

/-- C9 witness: an abbreviation in both sets resolves to NBA; one in neither
set fails. -/
theorem detect_team_league_nba_first_witness :
    (Validators.detect_team_league ["MIL"] ["MIL"] "mil" = some "NBA" ∧
      teamInit ["MIL"] ["MIL"] (some ⟨1610612749, "MIL"⟩) (some ⟨99, "MIL"⟩) "mil" =
        Except.ok ⟨"NBA", ⟨1610612749, "MIL"⟩⟩) ∧
    (Validators.detect_team_league ["MIL"] ["MIL"] "XXX" = none ∧
      teamInit ["MIL"] ["MIL"] none none "XXX" =
        Except.error ("Team abbreviation " ++ squote ++ "XXX" ++ squote ++
          " not found in NBA or WNBA")) :=
  ⟨detect_team_league_nba_first.1 ["MIL"] ["MIL"] ⟨1610612749, "MIL"⟩
     (some ⟨99, "MIL"⟩) "mil" (by decide) (by decide),
   detect_team_league_nba_first.2 ["MIL"] ["MIL"] none none "XXX" (by decide)
     (by decide)⟩

/-- A list is `isEmpty` exactly when it is nil. -/
theorem isEmpty_true_iff {α : Type} (l : List α) : l.isEmpty = true ↔ l = [] := by
  cases l <;> simp

/-- C6: standardization preserves the row count and maps rows one-to-one in
their original order — the output rows are exactly the input rows sent
through the row-wise transformer, so no row is filtered, added or
reordered. -/
theorem standardize_dataframe_row_preserving
    (df : DataFrame) (data_type : String) (season : Option SeasonInput)
    (playoffs : Option Bool) :
    (standardize_dataframe df data_type season playoffs).rows.length =
      df.rows.length ∧
    (standardize_dataframe df data_type season playoffs).rows =
      df.rows.map (standardizeRow (df.header.map normalizeColumnName)
        ((match season with
          | some s =>
            [match Formatter.format_season_id s with
             | Except.ok r => Value.str r
             | Except.error _ => Value.null]
          | none => []) ++
         (match playoffs with
          | some b => [Value.bool b]
          | none => []))) := by
  constructor
  · exact List.length_map df.rows _
  · rfl

/-- C7: `passed` is true iff `errors` is empty; a table with every required
column present has no errors and passes; and any value outside a declared
range rule makes the warnings list non-empty, independently of `passed`. -/
theorem validate_dataframe_errors_vs_warnings
    (df : DataFrame) (req : List String) (rules : List (String × Rat × Rat)) :
    ((validate_dataframe df req rules).passed = true ↔
      (validate_dataframe df req rules).errors = []) ∧
    ((∀ c ∈ req, c ∈ df.header) →
      (validate_dataframe df req rules).errors = [] ∧
      (validate_dataframe df req rules).passed = true) ∧
    (∀ (col : String) (lo hi : Rat) (row : List Value),
      (col, lo, hi) ∈ rules → row ∈ df.rows →
      outOfRangeCell lo hi (cellAt df.header row col) = true →
      (validate_dataframe df req rules).warnings ≠ []) := by
  refine ⟨isEmpty_true_iff ((validate_dataframe df req rules).errors), ?_, ?_⟩
  · intro hreq
    have hfil : req.filter (fun c => !(df.header.contains c)) = [] := by
      rw [List.filter_eq_nil_iff]
      intro c hc
      have hmem := hreq c hc
      simp [hmem]
    have herr : (validate_dataframe df req rules).errors = [] := by
      show (req.filter (fun c => !(df.header.contains c))).map
        (fun c => "missing column: " ++ c) = []
      rw [hfil]
      rfl
    refine ⟨herr, ?_⟩
    show ((validate_dataframe df req rules).errors).isEmpty = true
    rw [herr]
    rfl
  · intro col lo hi row hrin hrowin hviol
    have hmem : ("value out of range in column: " ++ col) ∈
        (validate_dataframe df req rules).warnings := by
      show _ ∈ rules.flatMap (fun rule =>
        (df.rows.filter (fun row =>
          outOfRangeCell rule.2.1 rule.2.2 (cellAt df.header row rule.1))).map
          (fun _ => "value out of range in column: " ++ rule.1))
      rw [List.mem_flatMap]
      refine ⟨(col, lo, hi), hrin, ?_⟩
      rw [List.mem_map]
      refine ⟨row, ?_, rfl⟩
      rw [List.mem_filter]
      exact ⟨hrowin, hviol⟩
    exact List.ne_nil_of_mem hmem

/-- C7 witness: a concrete table with its required columns present and one
out-of-range value passes with a non-empty warning list. -/
theorem validate_dataframe_witness :
    (validate_dataframe ⟨["player_id", "pts"], [[Value.str "0000203507", Value.num 200]]⟩
        ["player_id"] [("pts", (0 : Rat), (100 : Rat))]).errors = [] ∧
    (validate_dataframe ⟨["player_id", "pts"], [[Value.str "0000203507", Value.num 200]]⟩
        ["player_id"] [("pts", (0 : Rat), (100 : Rat))]).passed = true ∧
    (validate_dataframe ⟨["player_id", "pts"], [[Value.str "0000203507", Value.num 200]]⟩
        ["player_id"] [("pts", (0 : Rat), (100 : Rat))]).warnings ≠ [] :=
  ⟨((validate_dataframe_errors_vs_warnings
      ⟨["player_id", "pts"], [[Value.str "0000203507", Value.num 200]]⟩
      ["player_id"] [("pts", (0 : Rat), (100 : Rat))]).2.1 (by decide)).1,
   ((validate_dataframe_errors_vs_warnings
      ⟨["player_id", "pts"], [[Value.str "0000203507", Value.num 200]]⟩
      ["player_id"] [("pts", (0 : Rat), (100 : Rat))]).2.1 (by decide)).2,
   (validate_dataframe_errors_vs_warnings
      ⟨["player_id", "pts"], [[Value.str "0000203507", Value.num 200]]⟩
      ["player_id"] [("pts", (0 : Rat), (100 : Rat))]).2.2 "pts" 0 100
      [Value.str "0000203507", Value.num 200] (by decide) (by decide) (by decide)⟩
